import Mathlib

/-!
Verification development for the `lisho` link shortener, file `src/server.rs`.

The HTTP core of the repository is embedded shallowly at the byte level:
a Rust `&str` / byte buffer becomes a `List Nat` of byte values, the TCP
stream becomes an explicit list of the bytes the peer sends before closing
(a `read` call hands over at most 128 of the remaining bytes, and hands
over 0 bytes once the list is exhausted, exactly the chunked behaviour of
`stream.read(&mut byte_buf[..])` with `byte_buf = [0; 128]`), and the
responses written to the stream become an explicit event trace.

The read loop of `read_line_limited` does not terminate for every input
(there is no end-of-stream check), so it is modelled with explicit fuel:
`none` means the loop has not finished within the given number of
iterations, for any fuel value.

The `Store` collaborator lives in `store.rs`, which is not part of the
HTTP core source; it is modelled from the spec (see `StoreSt`).
-/

set_option autoImplicit false

/-- Byte strings: a Rust `&str` or `Vec<u8>` as its list of byte values. -/
abbrev Bytes := List Nat

/-- Bytes of an ASCII Lean string literal (code point = byte for ASCII). -/
def ascii (s : String) : Bytes := s.data.map Char.toNat

/-- The two-byte line terminator `\r\n`. -/
def crlf : Bytes := [13, 10]

/-- The `ResponseType` enum of `server.rs`. -/
inductive ResponseType
  | Ok
  | TemporaryRedirect
  | PermanentRedirect
  | BadRequest
  | ReqURITooLong
  | NotFound
deriving DecidableEq

/-- `MAX_HTTP_REQUEST_LEN` from `server.rs` (the shipped constant is 0). -/
def MAX_HTTP_REQUEST_LEN : Nat := 0

/-- `HTTP_VERSION` from `server.rs`. -/
def HTTP_VERSION : Bytes := ascii "HTTP/1.1"

/-- `LET_CLIENTS_CACHE` from `server.rs`. -/
def LET_CLIENTS_CACHE : Bool := true

/-- The four `include_str!` page templates, opaque byte blobs. -/
structure Pages where
  notFoundPage : Bytes
  redirectPage : Bytes
  indexPage : Bytes
  styleSheet : Bytes

/-- Does `pat` occur at the very start of `s`? (`str::starts_with`). -/
def leadsWith : Bytes → Bytes → Bool
  | [], _ => true
  | _ :: _, [] => false
  | p :: ps, b :: bs => p = b && leadsWith ps bs

/-- Does `s` contain `pat` as a contiguous run? (`str::contains` for a
literal pattern). -/
def containsSeq : Bytes → Bytes → Bool
  | s, pat =>
    leadsWith pat s ||
      match s with
      | [] => false
      | _ :: rest => containsSeq rest pat

/-- The segment of `s` before the first occurrence of `pat`
(`s.split(pat).next().unwrap()`; the whole of `s` when `pat` is absent). -/
def takeBeforeSeq : Bytes → Bytes → Bytes
  | s, pat =>
    if leadsWith pat s then []
    else
      match s with
      | [] => []
      | b :: rest => b :: takeBeforeSeq rest pat

/-- `str::replace(s, pat, rep)`: replace every non-overlapping occurrence
of `pat`, scanning left to right (for nonempty `pat`, which is the only
way `server.rs` uses it). -/
def replaceBytes (pat rep : Bytes) (s : Bytes) : Bytes :=
  match s with
  | [] => []
  | b :: rest =>
    if h : leadsWith pat (b :: rest) = true ∧ pat ≠ [] then
      rep ++ replaceBytes pat rep ((b :: rest).drop pat.length)
    else
      b :: replaceBytes pat rep rest
termination_by s.length
decreasing_by
  · simp only [List.length_drop]
    have hp : pat ≠ [] := h.2
    have : 1 ≤ pat.length := by
      cases pat with
      | nil => exact absurd rfl hp
      | cons p ps => simp
    simp only [List.length_cons]
    omega
  · simp

/-- Is `b` a UTF-8 continuation byte? (Rust `is_char_boundary` rejects
exactly the bytes in `0x80..0xC0`.) -/
def contB (b : Nat) : Bool := 0x80 ≤ b && b < 0xC0

/-- `String::from_utf8` validity of a byte list, following the UTF-8
well-formedness table (RFC 3629) that the Rust standard library checks:
overlong encodings, surrogates and values above U+10FFFF are rejected. -/
def utf8Valid : Bytes → Bool
  | [] => true
  | b :: rest =>
    if b < 0x80 then utf8Valid rest
    else if 0xC2 ≤ b && b ≤ 0xDF then
      match rest with
      | c1 :: r2 => contB c1 && utf8Valid r2
      | [] => false
    else if b = 0xE0 then
      match rest with
      | c1 :: c2 :: r2 => (0xA0 ≤ c1 && c1 ≤ 0xBF) && contB c2 && utf8Valid r2
      | _ => false
    else if (0xE1 ≤ b && b ≤ 0xEC) || b = 0xEE || b = 0xEF then
      match rest with
      | c1 :: c2 :: r2 => contB c1 && contB c2 && utf8Valid r2
      | _ => false
    else if b = 0xED then
      match rest with
      | c1 :: c2 :: r2 => (0x80 ≤ c1 && c1 ≤ 0x9F) && contB c2 && utf8Valid r2
      | _ => false
    else if b = 0xF0 then
      match rest with
      | c1 :: c2 :: c3 :: r2 =>
        (0x90 ≤ c1 && c1 ≤ 0xBF) && contB c2 && contB c3 && utf8Valid r2
      | _ => false
    else if 0xF1 ≤ b && b ≤ 0xF3 then
      match rest with
      | c1 :: c2 :: c3 :: r2 => contB c1 && contB c2 && contB c3 && utf8Valid r2
      | _ => false
    else if b = 0xF4 then
      match rest with
      | c1 :: c2 :: c3 :: r2 =>
        (0x80 ≤ c1 && c1 ≤ 0x8F) && contB c2 && contB c3 && utf8Valid r2
      | _ => false
    else false

/-- Rust `line.split(c)` for a single character separator: every
occurrence separates, so adjacent separators and edge separators yield
empty tokens, and the empty string yields one empty token. -/
def splitByte (sep : Nat) : Bytes → List Bytes
  | [] => [[]]
  | b :: rest =>
    if b = sep then [] :: splitByte sep rest
    else
      match splitByte sep rest with
      | t :: ts => (b :: t) :: ts
      | [] => [[b]]

/-- The slice `&path[1..]` of `server.rs`: defined (as `some` of the tail)
only when byte index 1 is in range and on a character boundary; `none`
models the Rust panic (empty string, or a multi-byte first character). -/
def sliceFrom1 (bs : Bytes) : Option Bytes :=
  match bs with
  | [] => none
  | _ :: rest =>
    match rest with
    | [] => some []
    | b :: _ => if contB b then none else some rest

/-- `"200 OK"`, `"307 TEMPORARY REDIRECT"`, ... : the `code_and_reason`
match of `send_response`. -/
def codeAndReason : ResponseType → Bytes
  | ResponseType.Ok => ascii "200 OK"
  | ResponseType.TemporaryRedirect => ascii "307 TEMPORARY REDIRECT"
  | ResponseType.PermanentRedirect => ascii "307 PERMANENT REDIRECT"
  | ResponseType.BadRequest => ascii "400 BAD REQUEST"
  | ResponseType.ReqURITooLong => ascii "414 REQUEST-URI TOO LONG"
  | ResponseType.NotFound => ascii "404 NOT FOUND"

/-- The body actually sent: the explicit content when given, otherwise the
code-and-reason text (the `match content` default of `send_response`). -/
def bodyOf (rt : ResponseType) (content : Option Bytes) : Bytes :=
  match content with
  | some c => c
  | none => codeAndReason rt

/-- Decimal rendering of a `usize`, as `write!` formats `{length}`. -/
def natDec (n : Nat) : Bytes := ascii (Nat.repr n)

/-- One low-level action of `send_response` on the stream: a `write!` of
some bytes, or the final `flush`. -/
inductive WireEvent
  | write (b : Bytes)
  | flush
deriving DecidableEq

/-- A header line `"Name: Value\r\n"` as one `write!` of the header loop
formats it. -/
def headerLine (kv : Bytes × Bytes) : Bytes := kv.1 ++ ascii ": " ++ kv.2 ++ crlf

/-- `send_response` of `server.rs` as the exact sequence of stream
actions it performs: status line, one write per header, the
`Content-Length` line with its blank line, the body, then `flush`.
The `HashMap` of headers is modelled as a list in iteration order
(`server.rs` never builds one with more than one entry, so the undefined
`HashMap` order is immaterial). -/
def sendResponseTrace (rt : ResponseType) (headers : List (Bytes × Bytes))
    (content : Option Bytes) : List WireEvent :=
  let body := bodyOf rt content
  [WireEvent.write (HTTP_VERSION ++ ascii " " ++ codeAndReason rt ++ crlf)]
    ++ headers.map (fun kv => WireEvent.write (headerLine kv))
    ++ [WireEvent.write (ascii "Content-Length: " ++ natDec body.length ++ crlf ++ crlf),
        WireEvent.write body,
        WireEvent.flush]

/-- The bytes a trace of stream actions puts on the wire. -/
def writtenBytes : List WireEvent → Bytes
  | [] => []
  | WireEvent.write b :: es => b ++ writtenBytes es
  | WireEvent.flush :: es => writtenBytes es

/-- An externally observable action of one connection: a full HTTP
response (one `send_response` call), or the `println!` of a requested
token (which goes to stdout, not to the connection). -/
inductive ConnEvent
  | response (rt : ResponseType) (headers : List (Bytes × Bytes)) (content : Option Bytes)
  | log (token : Bytes)
deriving DecidableEq

/-- Modelled from the spec: the `Store` collaborator of `store.rs`, which
is not part of the HTTP core source. The spec gives it
`get(token) -> Option<string>` (absence is not an error) behind an
immutable borrow, so a lookup returns the destination and leaves the
mapping as it is. -/
structure StoreSt where
  map : Bytes → Option Bytes

/-- Modelled from the spec: `Store::get`, threading the (unchanged) store
state explicitly. -/
def StoreSt.lookup (st : StoreSt) (token : Bytes) : Option Bytes × StoreSt :=
  (st.map token, st)

/-- The read loop of `read_line_limited`:
`while !accumulator.contains(&b) && accumulator.len() < limit` with
128-byte chunk reads. `fuel` bounds the number of iterations; `none`
means the loop has not finished within `fuel` iterations (a read of an
exhausted stream returns 0 bytes and the loop just spins, since the code
has no end-of-stream check). On `some (acc, rest)`, `acc` is the
accumulated buffer and `rest` the bytes still unread on the stream. -/
def readLoop (limit fuel : Nat) (acc input : Bytes) : Option (Bytes × Bytes) :=
  if acc.contains 10 ∨ ¬ acc.length < limit then some (acc, input)
  else
    match fuel with
    | 0 => none
    | f + 1 => readLoop limit f (acc ++ input.take 128) (input.drop 128)

/-- Outcome of `read_line_limited` as the caller sees it. -/
inductive ReadOutcome
  | gotLine (line : Bytes)
  | errNone
  | looping
deriving DecidableEq

/-- `read_line_limited` of `server.rs`. Returns the outcome, the bytes of
the stream still unread, and the responses it itself sent on the stream:
`gotLine l` is `Ok(l)` (note the stray-CR/LF branch sends a 400 response
and then still returns `Ok`), `errNone` is `Err(None)` (a 400 for a
UTF-8 decode failure or a 414 for a missing terminator was already sent),
and `looping` means the read loop has not finished within `fuel`
iterations. Writes are modelled as always succeeding, so the
`Err(Some(_))` branches for write failures do not arise. -/
def readLineLimited (limit fuel : Nat) (input : Bytes) :
    ReadOutcome × Bytes × List ConnEvent :=
  match readLoop limit fuel [] input with
  | none => (ReadOutcome.looping, input, [])
  | some (acc, rest) =>
    if utf8Valid acc then
      if containsSeq acc crlf then
        let line := takeBeforeSeq acc crlf
        if line.contains 13 || line.contains 10 then
          (ReadOutcome.gotLine line, rest,
            [ConnEvent.response ResponseType.BadRequest [] none])
        else
          (ReadOutcome.gotLine line, rest, [])
      else
        (ReadOutcome.errNone, rest,
          [ConnEvent.response ResponseType.ReqURITooLong [] none])
    else
      (ReadOutcome.errNone, rest,
        [ConnEvent.response ResponseType.BadRequest [] none])

/-- The part of `handle_connection` after the request line has been read:
token-count check, method check, `&path[1..]`, store lookup, routing.
`(none, st)` models the panic of `&path[1..]` on a bad index; otherwise
the events are the responses (and token log) produced, in order. -/
def handleRequestLine (pages : Pages) (st : StoreSt) (line : Bytes) :
    Option (List ConnEvent) × StoreSt :=
  let tokens := splitByte 32 line
  if tokens.length ≠ 3 then
    (some [ConnEvent.response ResponseType.BadRequest [] none], st)
  else if tokens.getD 0 [] ≠ ascii "GET" then
    (some [ConnEvent.response ResponseType.NotFound [] none], st)
  else
    let path := tokens.getD 1 []
    match sliceFrom1 path with
    | none => (none, st)
    | some token =>
      match StoreSt.lookup st token with
      | (some link, st2) =>
        let content :=
          replaceBytes (ascii "REDIRECTION_LINK") link
            (replaceBytes (ascii "REDIRECTION_TOKEN") token pages.redirectPage)
        let rtype :=
          if LET_CLIENTS_CACHE then ResponseType.PermanentRedirect
          else ResponseType.TemporaryRedirect
        (some [ConnEvent.log token,
               ConnEvent.response rtype [(ascii "Location", link)] (some content)], st2)
      | (none, st2) =>
        if path = ascii "/" ∨ path = ascii "/index.html" then
          (some [ConnEvent.response ResponseType.Ok [] (some pages.indexPage)], st2)
        else if path = ascii "/style.css" then
          (some [ConnEvent.response ResponseType.Ok [] (some pages.styleSheet)], st2)
        else
          (some [ConnEvent.response ResponseType.NotFound []
                  (some (replaceBytes (ascii "REDIRECTION_TOKEN") token
                          pages.notFoundPage))], st2)

/-- How one `handle_connection` call ended. -/
inductive HandleResult
  | done
  | crashed
  | looping
deriving DecidableEq

/-- Result of handling one connection: how it ended, the connection
events in order, the bytes of the stream never read, and the store
afterwards. -/
structure ConnResult where
  status : HandleResult
  events : List ConnEvent
  remaining : Bytes
  store : StoreSt

/-- `handle_connection` of `server.rs`: read the request line (a
`Err(None)` from the reader makes the handler return `Ok(())` at once),
then dispatch on the parsed line. -/
def handleConnection (pages : Pages) (limit fuel : Nat) (st : StoreSt)
    (input : Bytes) : ConnResult :=
  match readLineLimited limit fuel input with
  | (ReadOutcome.looping, rest, evs) => ⟨HandleResult.looping, evs, rest, st⟩
  | (ReadOutcome.errNone, rest, evs) => ⟨HandleResult.done, evs, rest, st⟩
  | (ReadOutcome.gotLine line, rest, evs) =>
    match handleRequestLine pages st line with
    | (none, st2) => ⟨HandleResult.crashed, evs, rest, st2⟩
    | (some evs2, st2) => ⟨HandleResult.done, evs ++ evs2, rest, st2⟩

/-- Number of HTTP responses in a connection trace. -/
def countResponses (evs : List ConnEvent) : Nat :=
  (evs.filter fun e =>
    match e with
    | ConnEvent.response _ _ _ => true
    | _ => false).length

/-- The bytes one connection event puts on the connection (a logged token
goes to stdout, so it contributes nothing). -/
def eventBytes : ConnEvent → Bytes
  | ConnEvent.response rt hs c => writtenBytes (sendResponseTrace rt hs c)
  | ConnEvent.log _ => []

/-- All bytes a connection trace puts on the connection. -/
def connBytes (evs : List ConnEvent) : Bytes := (evs.map eventBytes).flatten

/-- The accept loop serving a list of connections one after another with
the store threaded through (the fixed-store path of `run`, where
`has_changed` reports no change): the response byte stream of each
connection, in order. -/
def serveAll (pages : Pages) (limit fuel : Nat) : StoreSt → List Bytes → List Bytes
  | _, [] => []
  | st, c :: cs =>
    let r := handleConnection pages limit fuel st c
    connBytes r.events :: serveAll pages limit fuel r.store cs

/-- Concrete empty page set for counterexamples and witnesses. -/
def pages0 : Pages := ⟨[], [], [], []⟩

/-- Concrete empty store for counterexamples and witnesses. -/
def store0 : StoreSt := ⟨fun _ => none⟩

/-! ## Helper lemmas -/

theorem writtenBytes_append (l m : List WireEvent) :
    writtenBytes (l ++ m) = writtenBytes l ++ writtenBytes m := by
  induction l with
  | nil => rfl
  | cons e es ih => cases e <;> simp [writtenBytes, ih]

theorem writtenBytes_map_headerLine (hs : List (Bytes × Bytes)) :
    writtenBytes (hs.map fun kv => WireEvent.write (headerLine kv)) =
      (hs.map headerLine).flatten := by
  induction hs with
  | nil => rfl
  | cons kv t ih => simp [writtenBytes, ih]

theorem getLast?_app3 {α : Type} (l : List α) (a b c : α) :
    (l ++ [a, b, c]).getLast? = some c := by
  have h : l ++ [a, b, c] = (l ++ [a, b]) ++ [c] := by simp
  rw [h, List.getLast?_concat]

theorem dropLast_app3 {α : Type} (l : List α) (a b c : α) :
    (l ++ [a, b, c]).dropLast = l ++ [a, b] := by
  have h : l ++ [a, b, c] = (l ++ [a, b]) ++ [c] := by simp
  rw [h, List.dropLast_concat]

theorem getLast?_app2 {α : Type} (l : List α) (a b : α) :
    (l ++ [a, b]).getLast? = some b := by
  have h : l ++ [a, b] = (l ++ [a]) ++ [b] := by simp
  rw [h, List.getLast?_concat]

theorem handleRequestLine_store (pages : Pages) (st : StoreSt) (line : Bytes) :
    (handleRequestLine pages st line).2 = st := by
  simp only [handleRequestLine, StoreSt.lookup]
  repeat' split
  all_goals simp_all

theorem handleConnection_store (pages : Pages) (limit fuel : Nat) (st : StoreSt)
    (input : Bytes) : (handleConnection pages limit fuel st input).store = st := by
  unfold handleConnection
  rcases h : readLineLimited limit fuel input with ⟨o, rest, evs⟩
  cases o with
  | looping => simp
  | errNone => simp
  | gotLine line =>
    rcases h2 : handleRequestLine pages st line with ⟨o2, st2⟩
    have hst : st2 = st := by
      have := handleRequestLine_store pages st line
      rw [h2] at this
      exact this
    cases o2 <;> simp [h2, hst]

theorem readLoop_empty_input (limit : Nat) (acc : Bytes)
    (h1 : 10 ∉ acc) (h2 : acc.length < limit) :
    ∀ fuel, readLoop limit fuel acc [] = none := by
  intro fuel
  induction fuel with
  | zero => unfold readLoop; simp [h1, h2]
  | succ f ih => unfold readLoop; simpa [h1, h2] using ih

/-! ## Claim theorems -/

/-- C1: with the request-line budget configured as zero (the shipped
`MAX_HTTP_REQUEST_LEN`), the Line Reader does NOT treat the budget as
unbounded. The loop guard `accumulator.len() < limit` is false at once,
so for every connection — whatever bytes the peer sends, newline or not —
`read_line_limited` reads nothing (the stream is left untouched), sends a
414 REQUEST-URI TOO LONG response, and returns `Err(None)`. -/
theorem C1_limit_zero_reads_nothing (input : Bytes) (fuel : Nat) :
    readLineLimited MAX_HTTP_REQUEST_LEN fuel input =
      (ReadOutcome.errNone, input,
        [ConnEvent.response ResponseType.ReqURITooLong [] none]) := by
  have h : readLoop MAX_HTTP_REQUEST_LEN fuel [] input = some ([], input) := by
    unfold readLoop
    simp [MAX_HTTP_REQUEST_LEN]
  have h1 : utf8Valid [] = true := by decide
  have h2 : containsSeq [] crlf = false := by decide
  unfold readLineLimited
  rw [h]
  simp [h1, h2]

/-- C2: the claim of panic freedom fails. On the request line
`GET  HTTP/1.1` (two consecutive spaces, so exactly 3 tokens with an
empty target), the handler evaluates `&path[1..]` on the empty target,
which panics: the model returns `none` for every page set and store. -/
theorem C2_empty_target_panics (pages : Pages) (st : StoreSt) :
    (handleRequestLine pages st (ascii "GET  HTTP/1.1")).1 = none := by
  have hs : splitByte 32 (ascii "GET  HTTP/1.1") =
      [ascii "GET", [], ascii "HTTP/1.1"] := by decide
  simp [handleRequestLine, hs, sliceFrom1]

/-- C3: the single-response claim fails. For the connection bytes
`A\rB\r\n` (a stray carriage return inside the request line) and a
positive budget, `read_line_limited` sends a 400 BAD REQUEST but still
returns the line as `Ok`, and the handler then sends a second 400 for
the one-token line: two responses on one connection. -/
theorem C3_stray_cr_two_responses :
    (handleConnection pages0 1024 8 store0 (ascii "A\rB\r\n")).events =
      [ConnEvent.response ResponseType.BadRequest [] none,
       ConnEvent.response ResponseType.BadRequest [] none] ∧
    countResponses (handleConnection pages0 1024 8 store0 (ascii "A\rB\r\n")).events = 2 := by
  constructor
  · decide
  · decide

/-- C4: a successfully read request line with exactly 3 space-separated
tokens whose first token is not exactly `GET` always gets the bare
404 NOT FOUND response — never a 400 and never a redirect — and the
store is untouched. -/
theorem C4_non_get_is_404 (pages : Pages) (st : StoreSt) (line : Bytes)
    (h3 : (splitByte 32 line).length = 3)
    (hm : (splitByte 32 line).getD 0 [] ≠ ascii "GET") :
    handleRequestLine pages st line =
      (some [ConnEvent.response ResponseType.NotFound [] none], st) := by
  have h0 : 0 < (splitByte 32 line).length := by omega
  rw [List.getD_eq_getElem _ _ h0] at hm
  simp [handleRequestLine, h3, hm]

theorem C4_non_get_is_404_witness :
    (splitByte 32 (ascii "POST / HTTP/1.1")).length = 3 ∧
    (splitByte 32 (ascii "POST / HTTP/1.1")).getD 0 [] ≠ ascii "GET" ∧
    handleRequestLine pages0 store0 (ascii "POST / HTTP/1.1") =
      (some [ConnEvent.response ResponseType.NotFound [] none], store0) :=
  ⟨by decide, by decide,
    C4_non_get_is_404 pages0 store0 (ascii "POST / HTTP/1.1") (by decide) (by decide)⟩

/-- C5: a successfully read request line that splits on single ASCII
spaces into a token count different from 3 always gets the bare
400 BAD REQUEST response, whatever its content. -/
theorem C5_wrong_token_count_is_400 (pages : Pages) (st : StoreSt) (line : Bytes)
    (h3 : (splitByte 32 line).length ≠ 3) :
    handleRequestLine pages st line =
      (some [ConnEvent.response ResponseType.BadRequest [] none], st) := by
  simp [handleRequestLine, h3]

theorem C5_wrong_token_count_is_400_witness :
    (splitByte 32 (ascii "BADREQUESTLINE")).length ≠ 3 ∧
    handleRequestLine pages0 store0 (ascii "BADREQUESTLINE") =
      (some [ConnEvent.response ResponseType.BadRequest [] none], store0) :=
  ⟨by decide,
    C5_wrong_token_count_is_400 pages0 store0 (ascii "BADREQUESTLINE") (by decide)⟩

/-- C6: a well-formed GET request line whose target strips (via
`&path[1..]`) to a token mapped to `link` by the store yields exactly one
logged token and one redirect response: the configured kind is
`PermanentRedirect` (since `LET_CLIENTS_CACHE` is true), whose fixed
status line is `307 PERMANENT REDIRECT`; the `Location` header carries
the destination verbatim; and the body is the redirect template with the
token and the destination substituted for the two placeholders. -/
theorem C6_hit_redirects (pages : Pages) (st : StoreSt)
    (line target ver tok link : Bytes)
    (hsplit : splitByte 32 line = [ascii "GET", target, ver])
    (hslice : sliceFrom1 target = some tok)
    (hget : st.map tok = some link) :
    handleRequestLine pages st line =
      (some [ConnEvent.log tok,
             ConnEvent.response ResponseType.PermanentRedirect
               [(ascii "Location", link)]
               (some (replaceBytes (ascii "REDIRECTION_LINK") link
                       (replaceBytes (ascii "REDIRECTION_TOKEN") tok
                         pages.redirectPage)))], st) ∧
    codeAndReason ResponseType.PermanentRedirect = ascii "307 PERMANENT REDIRECT" ∧
    LET_CLIENTS_CACHE = true := by
  refine ⟨?_, by decide, rfl⟩
  simp [handleRequestLine, hsplit, hslice, StoreSt.lookup, hget, LET_CLIENTS_CACHE]

theorem C6_hit_redirects_witness :
    splitByte 32 (ascii "GET /abc HTTP/1.1") =
        [ascii "GET", ascii "/abc", ascii "HTTP/1.1"] ∧
    sliceFrom1 (ascii "/abc") = some (ascii "abc") ∧
    (StoreSt.mk fun t => if t = ascii "abc" then some (ascii "https://example.com") else none).map
        (ascii "abc") = some (ascii "https://example.com") ∧
    handleRequestLine
        ⟨ascii "nf", ascii "go REDIRECTION_TOKEN to REDIRECTION_LINK", ascii "idx", ascii "css"⟩
        (StoreSt.mk fun t => if t = ascii "abc" then some (ascii "https://example.com") else none)
        (ascii "GET /abc HTTP/1.1") =
      (some [ConnEvent.log (ascii "abc"),
             ConnEvent.response ResponseType.PermanentRedirect
               [(ascii "Location", ascii "https://example.com")]
               (some (replaceBytes (ascii "REDIRECTION_LINK") (ascii "https://example.com")
                       (replaceBytes (ascii "REDIRECTION_TOKEN") (ascii "abc")
                         (ascii "go REDIRECTION_TOKEN to REDIRECTION_LINK"))))],
       StoreSt.mk fun t => if t = ascii "abc" then some (ascii "https://example.com") else none) ∧
    codeAndReason ResponseType.PermanentRedirect = ascii "307 PERMANENT REDIRECT" ∧
    LET_CLIENTS_CACHE = true :=
  ⟨by decide, by decide, by decide,
    (C6_hit_redirects
      ⟨ascii "nf", ascii "go REDIRECTION_TOKEN to REDIRECTION_LINK", ascii "idx", ascii "css"⟩
      (StoreSt.mk fun t => if t = ascii "abc" then some (ascii "https://example.com") else none)
      (ascii "GET /abc HTTP/1.1") (ascii "/abc") (ascii "HTTP/1.1") (ascii "abc")
      (ascii "https://example.com") (by decide) (by decide) (by decide)).1,
    by decide, rfl⟩

/-- C7: `send_response` emits, in strict order, the status line
terminated by CRLF, each header as `Name: Value` with CRLF, a
`Content-Length` header whose value is the decimal byte length of the
body followed by a blank line, then the body bytes verbatim with nothing
after them; the connection is flushed last (after the body, before
returning); and when no explicit body is supplied the body is the
code-and-reason text of the status line. -/
theorem C7_send_response_format (rt : ResponseType) (headers : List (Bytes × Bytes))
    (content : Option Bytes) :
    writtenBytes (sendResponseTrace rt headers content) =
      HTTP_VERSION ++ ascii " " ++ codeAndReason rt ++ crlf
        ++ (headers.map headerLine).flatten
        ++ ascii "Content-Length: " ++ natDec (bodyOf rt content).length ++ crlf ++ crlf
        ++ bodyOf rt content ∧
    (sendResponseTrace rt headers content).getLast? = some WireEvent.flush ∧
    (sendResponseTrace rt headers content).dropLast.getLast? =
      some (WireEvent.write (bodyOf rt content)) ∧
    bodyOf rt none = codeAndReason rt := by
  have htr : sendResponseTrace rt headers content =
      ([WireEvent.write (HTTP_VERSION ++ ascii " " ++ codeAndReason rt ++ crlf)]
          ++ headers.map (fun kv => WireEvent.write (headerLine kv)))
        ++ [WireEvent.write (ascii "Content-Length: "
              ++ natDec (bodyOf rt content).length ++ crlf ++ crlf),
            WireEvent.write (bodyOf rt content),
            WireEvent.flush] := by
    simp [sendResponseTrace]
  refine ⟨?_, ?_, ?_, rfl⟩
  · rw [htr]
    simp [writtenBytes_append, writtenBytes, writtenBytes_map_headerLine,
      List.append_assoc]
  · rw [htr, getLast?_app3]
  · rw [htr, dropLast_app3, getLast?_app2]

/-- C8 (amended): after reading the request line the handler never reads
another byte from the connection — no header block is consumed on any
path; the bytes left unread by `read_line_limited` are exactly the bytes
left unread when the whole connection is finished. -/
theorem C8_no_header_block_read (pages : Pages) (limit fuel : Nat) (st : StoreSt)
    (input : Bytes) :
    (handleConnection pages limit fuel st input).remaining =
      (readLineLimited limit fuel input).2.1 := by
  unfold handleConnection
  rcases h : readLineLimited limit fuel input with ⟨o, rest, evs⟩
  cases o with
  | looping => simp
  | errNone => simp
  | gotLine line =>
    rcases h2 : handleRequestLine pages st line with ⟨o2, st2⟩
    cases o2 <;> simp [h2]

/-- C8 counterexample input: a complete GET request followed by a header
block that crosses the 128-byte first read chunk and ends with the blank
line. -/
def c8input : Bytes :=
  ascii "GET /x HTTP/1.1\r\n" ++ List.replicate 146 65 ++ [13, 10, 13, 10]

/-- C8 is false as stated: on `c8input` the handler finishes and produces
its one response while 39 bytes of the header block — including the
terminating blank line `\r\n\r\n` — were never read from the connection,
so no header lines are read and discarded up to an empty line. -/
theorem C8_headers_left_unread :
    (handleConnection pages0 1024 8 store0 c8input).status = HandleResult.done ∧
    countResponses (handleConnection pages0 1024 8 store0 c8input).events = 1 ∧
    (handleConnection pages0 1024 8 store0 c8input).remaining.length = 39 ∧
    containsSeq (handleConnection pages0 1024 8 store0 c8input).remaining
      (ascii "\r\n\r\n") = true := by
  refine ⟨by decide, by decide, by decide, by decide⟩

/-- C9: the clean-termination claim fails. When the peer closes before
sending anything (empty stream) and the line budget is positive, the read
loop — which never checks for a zero-byte read — spins forever: for every
fuel bound the handler is still looping, so the connection is never
terminated cleanly (and with the shipped budget 0 a 414 response is sent
instead, see `C1_limit_zero_reads_nothing`). -/
theorem C9_empty_close_spins (pages : Pages) (limit fuel : Nat) (st : StoreSt)
    (hpos : 0 < limit) :
    handleConnection pages limit fuel st [] =
      ⟨HandleResult.looping, [], [], st⟩ := by
  have h : readLoop limit fuel [] [] = none :=
    readLoop_empty_input limit [] (by simp) (by simpa using hpos) fuel
  simp [handleConnection, readLineLimited, h]

theorem C9_empty_close_spins_witness :
    0 < 1024 ∧
    handleConnection pages0 1024 7 store0 [] =
      ⟨HandleResult.looping, [], [], store0⟩ :=
  ⟨by decide, C9_empty_close_spins pages0 1024 7 store0 (by decide)⟩

/-- C10: serving the same connection input twice in a row against a fixed
store produces byte-identical response streams: a lookup leaves the store
untouched, so the second run starts from the same state and the two
serialized outputs coincide. -/
theorem C10_repeat_request_identical (pages : Pages) (limit fuel : Nat)
    (st : StoreSt) (input : Bytes) :
    ∃ out, serveAll pages limit fuel st [input, input] = [out, out] := by
  refine ⟨connBytes (handleConnection pages limit fuel st input).events, ?_⟩
  simp [serveAll, handleConnection_store]
